import Mathlib

/-!
Verification of the kalshi-predictor core against its specification.

The development shallowly embeds the four core components of the system:
the Kalshi market normalizer (`backend/app/services/kalshi.py`), the
game-to-market matcher (`backend/app/api/endpoints.py`), the Elo rating
store (`backend/app/services/elo_manager.py`), the ensemble prediction
engine (`backend/app/services/enhanced_prediction.py`) and the weight
calibrator (`backend/app/services/model_calibration.py`).

Money/probability arithmetic that the source performs on Python floats is
modelled over exact numbers: rational numbers `ℚ` where every operation is
field arithmetic (normalizer, matcher, calibrator) and real numbers `ℝ`
where the source uses `10 ** x` or `exp` (Elo expectation, the logistic
ensemble).  `round(x, n)` from Python is modelled by `round` to the same
number of decimal digits (ties are immaterial for every statement below).
-/

namespace KalshiPredictor

/-- Python truthiness of an optional number: `None` and `0` are falsy. -/
def truthy (o : Option ℚ) : Bool :=
  match o with
  | none => false
  | some x => x != 0

/-- Does the character list `hay` start with `needle`? -/
def starts_with : List Char → List Char → Bool
  | [], _ => true
  | _ :: _, [] => false
  | n :: ns, h :: hs => n == h && starts_with ns hs

/-- Does `needle` occur as a contiguous sublist of `hay`? -/
def contains_sub (needle : List Char) : List Char → Bool
  | [] => needle.isEmpty
  | h :: hs => starts_with needle (h :: hs) || contains_sub needle hs

/-- Substring containment, Python's `needle in hay` for strings. -/
def str_contains (hay needle : String) : Bool :=
  contains_sub needle.toList hay.toList

/-- ASCII lowercasing, Python's `s.lower()` (the identifiers involved are
ASCII). -/
def lower_string (s : String) : String :=
  String.mk (s.toList.map Char.toLower)

/-- Split a character list at every separator, keeping empty chunks, as
Python's `str.split(sep)` does. -/
def split_chars (p : Char → Bool) : List Char → List (List Char)
  | [] => [[]]
  | c :: cs =>
    let rest := split_chars p cs
    if p c then [] :: rest
    else
      match rest with
      | [] => [[c]]
      | t :: ts => (c :: t) :: ts

/-- String splitting on a character predicate. -/
def split_string (s : String) (p : Char → Bool) : List String :=
  (split_chars p s.toList).map String.mk

/-- Parse a nonempty all-digit string, Python's `int(s)` on the record
substrings (`None` on anything else, modelling the caught `ValueError`). -/
def parse_nat (s : String) : Option ℕ :=
  if s.toList ≠ [] ∧ s.toList.all (fun c => '0' ≤ c ∧ c ≤ '9') then
    some (s.toList.foldl (fun acc c => 10 * acc + (c.toNat - '0'.toNat)) 0)
  else none

/-- Model of `re.sub(r'[^a-z0-9 ]', ' ', s)`: every character that is not a
lowercase ASCII letter, digit or space is replaced by a space. -/
def sanitize (s : String) : String :=
  String.mk (s.toList.map (fun c =>
    if ('a' ≤ c ∧ c ≤ 'z') ∨ ('0' ≤ c ∧ c ≤ '9') ∨ c = ' ' then c else ' '))

/-- Python's `round(x, 3)` on the exact rational value (round to the nearest
multiple of `1/1000`). -/
def roundq3 (x : ℚ) : ℚ :=
  (round (1000 * x) : ℤ) / 1000

/-- Model of `np.clip(x, lo, hi)`. -/
def clipq (x lo hi : ℚ) : ℚ :=
  min hi (max lo x)

/- ------------------------------------------------------------------
Kalshi market normalizer, from `KalshiClient.normalize_market`.
------------------------------------------------------------------ -/

/-- Raw market quote as delivered by the market feed.  Optional fields model
keys that may be absent from the raw dict. -/
structure RawMarket where
  title : String
  subtitle : String
  ticker : String
  event_ticker : String
  last_price : Option ℚ
  yes_bid : Option ℚ
  yes_ask : Option ℚ
  volume_24h : Option ℚ
deriving DecidableEq

/-- Normalized market view produced by `normalize_market`. -/
structure NormMarket where
  market_id : String
  event_ticker : String
  title : String
  subtitle : String
  subject : String
  prob : ℚ
  yes_bid : ℚ
  yes_ask : ℚ
  volume : ℚ
deriving DecidableEq

/-- Embedding of `KalshiClient.normalize_market`.  The subject is the
subtitle when truthy (non-empty), otherwise the title; the probability is
`last_price/100` when `last_price` is truthy, else the bid/ask midpoint when
both are truthy, else `0.5`. -/
def normalize_market (m : RawMarket) : NormMarket :=
  let subject := if m.subtitle ≠ "" then m.subtitle else m.title
  let yes_bid := m.yes_bid.getD 0
  let yes_ask := m.yes_ask.getD 100
  let prob : ℚ :=
    if truthy m.last_price then m.last_price.getD 0 / 100
    else if yes_bid ≠ 0 ∧ yes_ask ≠ 0 then (yes_bid + yes_ask) / 200
    else 1 / 2
  ⟨m.ticker, m.event_ticker, m.title, m.subtitle, subject, prob,
    yes_bid, yes_ask, m.volume_24h.getD 0⟩

/- ------------------------------------------------------------------
Game-to-market matcher, from `endpoints.match_game_to_markets`.
------------------------------------------------------------------ -/

/-- The fields of a scheduled game that the matcher consumes. -/
structure MatchGame where
  home_team_name : String
  away_team_name : String
  home_team_abbrev : String
  away_team_abbrev : String
deriving DecidableEq

/-- Embedding of `_build_team_keys`: lowercase alphanumeric tokens of length
greater than 2 from the name, the last token (mascot), the concatenation of
all tokens (city+mascot), and the lowercased abbreviation.  The source keeps
the keys in a set; only membership is observable downstream (`any`), so a
list with possible duplicates is an equivalent model. -/
def build_team_keys (name abbr : String) : List String :=
  let nameKeys :=
    if name ≠ "" then
      let clean := sanitize (lower_string name)
      let tokens := (split_string clean (fun c => c = ' ')).filter (fun t => t.length > 2)
      tokens ++
        (match tokens.getLast? with
         | some last => [last, String.join tokens]
         | none => [])
    else []
  let abbrKeys := if abbr ≠ "" then [lower_string abbr] else []
  (nameKeys ++ abbrKeys).filter (fun k => k ≠ "")

/-- Embedding of `_market_text`: title and ticker, lowercased. -/
def market_text (m : RawMarket) : String :=
  lower_string (m.title ++ " " ++ m.ticker)

/-- Does any of the keys occur as a substring of the given text? -/
def any_key (keys : List String) (text : String) : Bool :=
  keys.any (fun k => str_contains text k)

/-- Mutable loop state of the matcher's scan over the market list. -/
structure ScanState where
  home_match : Option NormMarket
  away_match : Option NormMarket
  best_single_market : Option NormMarket
  best_single_score : ℚ
deriving DecidableEq

/-- One iteration of the matcher's `for market in markets` loop.  Note that a
home-only (resp. away-only) match overwrites the previous one: the source has
no `is None` guard. -/
def scan_step (hk ak : List String) (st : ScanState) (m : RawMarket) : ScanState :=
  let norm := normalize_market m
  let subject := lower_string norm.subject
  let is_home := any_key hk subject
  let is_away := any_key ak subject
  let st1 :=
    if is_home && !is_away then
      ⟨some norm, st.away_match, st.best_single_market, st.best_single_score⟩
    else if is_away && !is_home then
      ⟨st.home_match, some norm, st.best_single_market, st.best_single_score⟩
    else st
  let text := market_text m
  let score : ℚ := (if any_key hk text then 1 else 0) + (if any_key ak text then 1 else 0)
  if score > st1.best_single_score then
    ⟨st1.home_match, st1.away_match, some norm, score⟩
  else st1

/-- The whole scan loop. -/
def scan_markets (hk ak : List String) (markets : List RawMarket) : ScanState :=
  markets.foldl (scan_step hk ak) ⟨none, none, none, 0⟩

/-- Result of the matcher: a tagged union over the matched market(s). -/
inductive MatchedResult where
  | dual (home_market away_market : NormMarket)
  | single_home (home_market : NormMarket)
  | single_away (away_market : NormMarket)
deriving DecidableEq

/-- Did the scan find two distinct explicitly-matched markets? -/
def is_dual (st : ScanState) : Bool :=
  match st.home_match, st.away_match with
  | some h, some a => h.market_id != a.market_id
  | _, _ => false

/-- The single-market fallback of the matcher (step 2 of the resolution). -/
def single_fallback (hk ak : List String) (st : ScanState) : Option MatchedResult :=
  match st.best_single_market with
  | some m =>
    if st.best_single_score ≥ 3 / 2 then
      let subject := lower_string m.subject
      let is_home_subject := any_key hk subject
      let is_away_subject := any_key ak subject
      if is_home_subject && !is_away_subject then some (.single_home m)
      else if is_away_subject && !is_home_subject then some (.single_away m)
      else some (.single_home m)
    else none
  | none => none

/-- Embedding of `match_game_to_markets`. -/
def match_game_to_markets (g : MatchGame) (markets : List RawMarket) :
    Option MatchedResult :=
  if markets = [] then none
  else
    let hk := build_team_keys g.home_team_name g.home_team_abbrev
    let ak := build_team_keys g.away_team_name g.away_team_abbrev
    let st := scan_markets hk ak markets
    match st.home_match, st.away_match with
    | some h, some a =>
      if h.market_id ≠ a.market_id then some (.dual h a)
      else single_fallback hk ak st
    | some _, none => single_fallback hk ak st
    | none, some _ => single_fallback hk ak st
    | none, none => single_fallback hk ak st

/-- Is a raw market, once normalized, a home-only match (its subject contains
a home token and no away token)? -/
def home_only (hk ak : List String) (m : RawMarket) : Bool :=
  let subject := lower_string (normalize_market m).subject
  any_key hk subject && !any_key ak subject

/-- Is a raw market, once normalized, an away-only match? -/
def away_only (hk ak : List String) (m : RawMarket) : Bool :=
  let subject := lower_string (normalize_market m).subject
  any_key ak subject && !any_key hk subject

/- ------------------------------------------------------------------
Elo rating store, from `elo_manager.EloManager`.
------------------------------------------------------------------ -/

noncomputable section EloStore

/-- The persistent rating table: a finite map from `"league_team"` keys to
ratings, absent keys meaning the 1500.0 default. -/
structure EloState where
  ratings : String → Option ℝ

/-- Embedding of `EloManager.get_rating`: stored rating or the 1500 default. -/
def get_rating (st : EloState) (team_id league : String) : ℝ :=
  (st.ratings (league ++ "_" ++ team_id)).getD 1500

/-- Embedding of `self.HOME_ADVANTAGE.get(league, 60)` over the table
`{"nba": 65, "nfl": 55}`. -/
def home_advantage_elo (league : String) : ℝ :=
  if league = "nba" then 65 else if league = "nfl" then 55 else 60

/-- Embedding of `EloManager._calculate_expected_score`. -/
def calculate_expected_score (rating_a rating_b : ℝ) : ℝ :=
  1 / (1 + (10 : ℝ) ^ ((rating_b - rating_a) / 400))

/-- Python's `round(x, 1)` (nearest tenth; ties are immaterial below). -/
def round1 (x : ℝ) : ℝ :=
  (round (10 * x) : ℤ) / 10

/-- Embedding of `EloManager._update_ratings`.  Returns the new state (with
both new ratings stored rounded to one decimal, the away write performed
last) together with the two unrounded updated ratings that the source
returns. -/
def update_ratings (st : EloState) (home_id away_id league : String)
    (home_won : Bool) (home_score away_score : ℤ) : EloState × ℝ × ℝ :=
  let home_rating := get_rating st home_id league
  let away_rating := get_rating st away_id league
  let home_rating_adj := home_rating + home_advantage_elo league
  let home_expected := calculate_expected_score home_rating_adj away_rating
  let away_expected := 1 - home_expected
  let home_actual : ℝ := if home_won then 1 else 0
  let away_actual := 1 - home_actual
  let point_diff : ℝ := |(home_score : ℝ) - (away_score : ℝ)|
  let mov_multiplier := min (1 + point_diff / 25) 2
  let new_home_rating := home_rating + 32 * mov_multiplier * (home_actual - home_expected)
  let new_away_rating := away_rating + 32 * mov_multiplier * (away_actual - away_expected)
  let key_home := league ++ "_" ++ home_id
  let key_away := league ++ "_" ++ away_id
  (⟨fun k =>
      if k = key_away then some (round1 new_away_rating)
      else if k = key_home then some (round1 new_home_rating)
      else st.ratings k⟩,
   new_home_rating, new_away_rating)

/-- An empty rating table (every team at the default). -/
def emptyElo : EloState := ⟨fun _ => none⟩

end EloStore

/- ------------------------------------------------------------------
Ensemble prediction engine, from
`enhanced_prediction.EnhancedPredictionEngine`.
------------------------------------------------------------------ -/

/-- Embedding of `_parse_record`: parse a `"W-L"` record string, `(0, 0)` on
any failure. -/
def parse_record (record : String) : ℕ × ℕ :=
  if record.toList.contains '-' then
    match (split_string record (fun c => c = '-')).map parse_nat with
    | [some w, some l] => (w, l)
    | _ => (0, 0)
  else (0, 0)

noncomputable section Engine

/-- Embedding of `_calculate_record_win_prob`. -/
def calculate_record_win_prob (record : String) : ℝ :=
  let wl := parse_record record
  if wl.1 + wl.2 = 0 then 1 / 2 else (wl.1 : ℝ) / ((wl.1 : ℝ) + (wl.2 : ℝ))

/-- Embedding of `EnhancedPredictionEngine.calculate_elo_win_prob` (engine
side home advantage: 65 for `nba`, 55 otherwise). -/
def calculate_elo_win_prob (home_elo away_elo : ℝ) (league : String) : ℝ :=
  let home_advantage : ℝ := if league = "nba" then 65 else 55
  let home_elo_adjusted := home_elo + home_advantage
  1 / (1 + (10 : ℝ) ^ ((away_elo - home_elo_adjusted) / 400))

/-- Embedding of `_calculate_log5_prob` (inputs clamped to `[0.01, 0.99]`). -/
def calculate_log5_prob (p_a p_b : ℝ) : ℝ :=
  let pa := max 0.01 (min 0.99 p_a)
  let pb := max 0.01 (min 0.99 p_b)
  let numerator := pa - pa * pb
  let denominator := pa + pb - 2 * (pa * pb)
  if denominator = 0 then 1 / 2 else numerator / denominator

/-- Embedding of `predict_with_statistical`: the logistic statistical
ensemble with the research-backed coefficients, H2H adjustment and market
calibration term, clamped to `[0.05, 0.95]`. -/
def predict_with_statistical (elo_diff form_diff record_diff h2h_adjustment : ℝ)
    (market_confidence : String) : ℝ :=
  let z := 0.008 * elo_diff + 0.6 * form_diff + 0.4 * record_diff + 0.05
  let base_prob := 1 / (1 + Real.exp (-z))
  let market_calibration : ℝ :=
    if market_confidence = "HIGH" then 0.02
    else if market_confidence = "MEDIUM" then 0 else -0.01
  max 0.05 (min 0.95 (base_prob + h2h_adjustment + market_calibration))

/-- Recent-form summary, as produced by `calculate_recent_form` (the engine
consumes exactly these four fields; `{0.5, 0, 0, NEUTRAL}` is the source's
default when a team has no finished games). -/
structure FormStats where
  win_pct : ℝ
  avg_point_diff : ℝ
  momentum : ℝ
  strength : String

/-- Season aggregate, as produced by `calculate_season_stats`
(`{0.5, 0}` is the source's default when a team has no finished games). -/
structure SeasonStats where
  pythagorean_win_pct : ℝ
  games_played : ℕ

/-- The game fields the engine's numeric core reads. -/
structure GameInfo where
  home_team_name : String
  away_team_name : String
  league : String
  home_record : String
  away_record : String

/-- One matched market's fields as the engine reads them from the normalized
market dict. -/
structure MarketData where
  prob : ℝ
  volume : ℝ
  yes_bid : ℝ
  yes_ask : ℝ

/-- The `kalshi_markets` argument of `generate_prediction`: the matcher's
tagged result carrying the market data the engine reads. -/
inductive KalshiMarkets where
  | dual (home_market away_market : MarketData)
  | single_home (home_market : MarketData)
  | single_away (away_market : MarketData)

/-- All upstream inputs of one `generate_prediction` evaluation: the game,
the two current Elo ratings, the helper-computed form / season / H2H / injury
/ rest / travel data, and the matched markets (if any). -/
structure EngineInputs where
  game : GameInfo
  home_elo : ℝ
  away_elo : ℝ
  home_form : FormStats
  away_form : FormStats
  home_season : SeasonStats
  away_season : SeasonStats
  h2h_home_win_pct : ℝ
  home_injury_impact : ℝ
  away_injury_impact : ℝ
  home_rest : ℤ
  away_rest : ℤ
  travel_distance_km : ℝ
  travel_tz_diff : ℝ
  kalshi_markets : Option KalshiMarkets

/-- The engine's weight configuration (instance attributes set in
`__init__`, possibly replaced by calibrated values). -/
structure EngineConfig where
  WEIGHT_STATS : ℝ
  WEIGHT_KALSHI : ℝ
  WEIGHT_ELO : ℝ
  WEIGHT_FORM : ℝ
  STAT_ELO_WEIGHT : ℝ
  STAT_FORM_WEIGHT : ℝ
  STAT_RECORD_WEIGHT : ℝ
  STAT_H2H_WEIGHT : ℝ
  STAT_INJURY_WEIGHT : ℝ

/-- The default weights hard-coded in `__init__`. -/
def defaultConfig : EngineConfig :=
  ⟨0.30, 0.40, 0.15, 0.10, 0.40, 0.20, 0.15, 0.10, 0.15⟩

/-- Step 1 of `generate_prediction`: the Elo component probability. -/
def elo_prob_of (inp : EngineInputs) : ℝ :=
  calculate_elo_win_prob inp.home_elo inp.away_elo inp.game.league

/-- Step 2 of `generate_prediction`: recent-form probability with momentum
weighting and strength bonus, clamped to `[0.12, 0.88]`. -/
def form_prob_of (inp : EngineInputs) : ℝ :=
  let form_diff := inp.home_form.win_pct - inp.away_form.win_pct
  let momentum_diff := (inp.home_form.momentum - inp.away_form.momentum) / 10
  let strength_bonus : ℝ :=
    if inp.home_form.strength = "STRONG" ∧ inp.away_form.strength ≠ "STRONG" then 0.03
    else if inp.away_form.strength = "STRONG" ∧ inp.home_form.strength ≠ "STRONG" then -0.03
    else 0
  let form_prob := 0.5 + form_diff * 0.35 + momentum_diff * 0.15 + strength_bonus + 0.05
  max 0.12 (min 0.88 form_prob)

/-- Step 3 of `generate_prediction`: Pythagorean/Log5 record probability when
both teams have at least 5 finished games, simple record fallback otherwise;
clamped to `[0.15, 0.85]`. -/
def record_prob_of (inp : EngineInputs) : ℝ :=
  let record_prob :=
    if 5 ≤ inp.home_season.games_played ∧ 5 ≤ inp.away_season.games_played then
      calculate_log5_prob inp.home_season.pythagorean_win_pct
        inp.away_season.pythagorean_win_pct + 0.04
    else
      let home_win_pct := calculate_record_win_prob inp.game.home_record
      let away_win_pct := calculate_record_win_prob inp.game.away_record
      0.5 + (home_win_pct - away_win_pct) * 0.35 + 0.055
  max 0.15 (min 0.85 record_prob)

/-- Step 3c of `generate_prediction`: the head-to-head adjustment. -/
def h2h_adjustment_of (inp : EngineInputs) : ℝ :=
  (inp.h2h_home_win_pct - 0.5) * 0.1

/-- Step 3e of `generate_prediction`: injury probability, clamped to
`[0.20, 0.80]`. -/
def injury_prob_of (inp : EngineInputs) : ℝ :=
  let net_injury_impact := inp.away_injury_impact - inp.home_injury_impact
  max 0.20 (min 0.80 (0.5 + net_injury_impact * 0.04))

/-- The rest-day adjustment of step 3f, per league. -/
def rest_impact_calc (league : String) (home_rest away_rest : ℤ) : ℝ :=
  if league = "nba" then
    (if home_rest = 1 then -0.03 else 0) + (if away_rest = 1 then 0.03 else 0) +
      (if 3 ≤ home_rest ∧ away_rest = 1 then -0.01 else 0)
  else if league = "nfl" then
    (if home_rest < 6 then -0.02 else 0) + (if away_rest < 6 then 0.02 else 0) +
      (if 10 < home_rest then 0.02 else 0) + (if 10 < away_rest then -0.02 else 0)
  else 0

/-- The (nonpositive) travel impact of `calculate_travel_impact`, as a
function of the great-circle distance and approximate time-zone shift
computed from the two venues (0 when location data is missing). -/
def travel_impact_calc (distance_km tz_diff : ℝ) : ℝ :=
  (if 3000 < distance_km then -0.02 else if 1500 < distance_km then -0.01 else 0) +
    (if 2.5 ≤ |tz_diff| then -0.015 else 0)

/-- Step 3f of `generate_prediction`: contextual probability from rest and
travel (the travel term is negated because a travel penalty on the away team
helps the home probability). -/
def context_prob_of (inp : EngineInputs) : ℝ :=
  0.5 + rest_impact_calc inp.game.league inp.home_rest inp.away_rest +
    -travel_impact_calc inp.travel_distance_km inp.travel_tz_diff

/-- Step 3d of `generate_prediction`: the weighted statistical model
probability shown to users as 'Model', including the unnormalized
`(context - 0.5) * 0.10` nudge, clamped to `[0.10, 0.90]`. -/
def stat_model_prob_of (cfg : EngineConfig) (inp : EngineInputs) : ℝ :=
  let stat_model_prob :=
    elo_prob_of inp * cfg.STAT_ELO_WEIGHT +
    form_prob_of inp * cfg.STAT_FORM_WEIGHT +
    record_prob_of inp * cfg.STAT_RECORD_WEIGHT +
    (0.5 + h2h_adjustment_of inp) * cfg.STAT_H2H_WEIGHT +
    injury_prob_of inp * cfg.STAT_INJURY_WEIGHT +
    (context_prob_of inp - 0.5) * 0.10
  max 0.10 (min 0.90 stat_model_prob)

/-- Step 4 of `generate_prediction`: the market's home-side probability
(`0.5` when no market matched). -/
def home_kalshi_prob_of (km : Option KalshiMarkets) : ℝ :=
  match km with
  | none => 0.5
  | some (.dual hm _) => hm.prob
  | some (.single_home m) => m.prob
  | some (.single_away m) => 1 - m.prob

/-- The away-side market probability of step 4. -/
def away_kalshi_prob_of (km : Option KalshiMarkets) : ℝ :=
  match km with
  | none => 0.5
  | some (.dual _ am) => am.prob
  | some (.single_home m) => 1 - m.prob
  | some (.single_away m) => m.prob

/-- Aggregate market volume of step 4 (`0` when no market matched). -/
def market_volume_of (km : Option KalshiMarkets) : ℝ :=
  match km with
  | none => 0
  | some (.dual hm am) => hm.volume + am.volume
  | some (.single_home m) => m.volume
  | some (.single_away m) => m.volume

/-- Bid/ask spread of step 4 (`15` when no market matched). -/
def market_spread_of (km : Option KalshiMarkets) : ℝ :=
  match km with
  | none => 15
  | some (.dual hm am) =>
    ((hm.yes_ask - hm.yes_bid) + (am.yes_ask - am.yes_bid)) / 2
  | some (.single_home m) => m.yes_ask - m.yes_bid
  | some (.single_away m) => m.yes_ask - m.yes_bid

/-- The market confidence tier of step 4: HIGH when volume is over 500 and
the spread at most 5, MEDIUM when volume is over 100 and the spread at most
15, LOW otherwise (also LOW when no market matched). -/
def kalshi_confidence_of (km : Option KalshiMarkets) : String :=
  match km with
  | none => "LOW"
  | some _ =>
    if market_volume_of km > 500 ∧ market_spread_of km ≤ 5 then "HIGH"
    else if market_volume_of km > 100 ∧ market_spread_of km ≤ 15 then "MEDIUM"
    else "LOW"

/-- The `record_diff` input of the statistical ensemble of step 6 (note the
source gates this on the home side's games alone). -/
def ensemble_record_diff_of (inp : EngineInputs) : ℝ :=
  if 5 ≤ inp.home_season.games_played then
    inp.home_season.pythagorean_win_pct - inp.away_season.pythagorean_win_pct
  else
    calculate_record_win_prob inp.game.home_record -
      calculate_record_win_prob inp.game.away_record

/-- Step 6 of `generate_prediction`: the logistic statistical ensemble. -/
def stat_ensemble_prob_of (inp : EngineInputs) : ℝ :=
  predict_with_statistical (inp.home_elo - inp.away_elo)
    (inp.home_form.win_pct - inp.away_form.win_pct)
    (ensemble_record_diff_of inp)
    (h2h_adjustment_of inp)
    (kalshi_confidence_of inp.kalshi_markets)

/-- Steps 7 and 8 of `generate_prediction`: confidence-dependent final blend
weights applied to the five components, plus the H2H adjustment, clamped to
`[0.05, 0.95]`. -/
def final_prob_of (cfg : EngineConfig) (inp : EngineInputs) : ℝ :=
  let conf := kalshi_confidence_of inp.kalshi_markets
  let w_kalshi := if conf = "HIGH" then 0.50 else if conf = "LOW" then 0.15 else cfg.WEIGHT_KALSHI
  let w_stats := if conf = "HIGH" then 0.20 else if conf = "LOW" then 0.35 else cfg.WEIGHT_STATS
  let w_elo := if conf = "HIGH" then 0.15 else if conf = "LOW" then 0.25 else cfg.WEIGHT_ELO
  let w_form := if conf = "HIGH" then 0.10 else if conf = "LOW" then 0.20 else cfg.WEIGHT_FORM
  let w_ensemble : ℝ := 0.05
  let base_prob :=
    stat_model_prob_of cfg inp * w_stats +
    home_kalshi_prob_of inp.kalshi_markets * w_kalshi +
    elo_prob_of inp * w_elo +
    form_prob_of inp * w_form +
    stat_ensemble_prob_of inp * w_ensemble
  max 0.05 (min 0.95 (base_prob + h2h_adjustment_of inp))

/-- Step 9 of `generate_prediction`: divergence between the statistical model
and the market. -/
def divergence_of (cfg : EngineConfig) (inp : EngineInputs) : ℝ :=
  |stat_model_prob_of cfg inp - home_kalshi_prob_of inp.kalshi_markets|

/-- Step 9 of `generate_prediction`: the signal strength thresholds. -/
def signal_strength_of (cfg : EngineConfig) (inp : EngineInputs) : String :=
  if divergence_of cfg inp > 0.15 then "STRONG"
  else if divergence_of cfg inp > 0.08 then "MODERATE"
  else "WEAK"

/-- Step 9 of `generate_prediction`: the intermediate recommendation value,
before the wager-sizing block reassigns it. -/
def initial_recommendation_of (cfg : EngineConfig) (inp : EngineInputs) : String :=
  if divergence_of cfg inp > 0.15 then
    if home_kalshi_prob_of inp.kalshi_markets > stat_model_prob_of cfg inp then
      "Follow Market" else "Fade Market"
  else if divergence_of cfg inp > 0.08 then
    if home_kalshi_prob_of inp.kalshi_markets > stat_model_prob_of cfg inp then
      "Lean Market" else "Lean Model"
  else "Neutral"

/-- The wager-sizing block's `edge`: the model-vs-market gap on the side the
model favors. -/
def edge_of (cfg : EngineConfig) (inp : EngineInputs) : ℝ :=
  if stat_model_prob_of cfg inp > home_kalshi_prob_of inp.kalshi_markets then
    stat_model_prob_of cfg inp - home_kalshi_prob_of inp.kalshi_markets
  else
    home_kalshi_prob_of inp.kalshi_markets - stat_model_prob_of cfg inp

/-- The team name the wager-sizing block targets. -/
def target_team_of (cfg : EngineConfig) (inp : EngineInputs) : String :=
  if stat_model_prob_of cfg inp > home_kalshi_prob_of inp.kalshi_markets then
    inp.game.home_team_name
  else inp.game.away_team_name

/-- The conservative (quarter) Kelly fraction of the wager-sizing block. -/
def kelly_f_of (cfg : EngineConfig) (inp : EngineInputs) : ℝ :=
  let stat := stat_model_prob_of cfg inp
  let market := home_kalshi_prob_of inp.kalshi_markets
  let raw :=
    if stat > market then
      if market < 1 then (stat - market) / (1 - market) else 0
    else
      if 0 < market then (market - stat) / market else 0
  max 0 (raw * 0.25)

/-- The uncapped wager amount `int(50 * (1 + kelly_f * 5))` (the Kelly
fraction is nonnegative, so Python's truncation is the floor). -/
def wager_base_of (cfg : EngineConfig) (inp : EngineInputs) : ℤ :=
  ⌊(50 : ℝ) * (1 + kelly_f_of cfg inp * 5)⌋

/-- The final wager amount after the per-signal cap and floor (`0` when the
edge is insufficient). -/
def wager_amount_of (cfg : EngineConfig) (inp : EngineInputs) : ℤ :=
  if edge_of cfg inp > 0.05 then
    if signal_strength_of cfg inp = "STRONG" then
      max 25 (min 100 (wager_base_of cfg inp))
    else if signal_strength_of cfg inp = "MODERATE" then
      max 15 (min 50 (wager_base_of cfg inp))
    else 10
  else 0

/-- The displayed wager range string. -/
def wager_display_of (cfg : EngineConfig) (inp : EngineInputs) : String :=
  if edge_of cfg inp > 0.05 then
    if signal_strength_of cfg inp = "STRONG" then
      "$" ++ toString (wager_amount_of cfg inp) ++ "-$" ++
        toString (wager_amount_of cfg inp + 25)
    else if signal_strength_of cfg inp = "MODERATE" then
      "$" ++ toString (wager_amount_of cfg inp) ++ "-$" ++
        toString (wager_amount_of cfg inp + 15)
    else "$10-$20"
  else "No Bet"

/-- The recommendation value the result carries: the wager-sizing block
unconditionally reassigns the step 9 value, to `"Bet team"` / `"Lean team"`
when the edge exceeds 0.05 and to `"Stay Away"` otherwise. -/
def recommendation_of (cfg : EngineConfig) (inp : EngineInputs) : String :=
  if edge_of cfg inp > 0.05 then
    if signal_strength_of cfg inp = "STRONG" then "Bet " ++ target_team_of cfg inp
    else if signal_strength_of cfg inp = "MODERATE" then "Lean " ++ target_team_of cfg inp
    else "Lean " ++ target_team_of cfg inp
  else "Stay Away"

/-- The numeric and decision fields of the result dict that
`generate_prediction` returns (`prediction` and `recommendation` sections). -/
structure PredictionResult where
  home_win_prob : ℝ
  away_win_prob : ℝ
  stat_model_prob : ℝ
  home_kalshi_prob : ℝ
  away_kalshi_prob : ℝ
  elo_prob : ℝ
  form_prob : ℝ
  record_prob : ℝ
  injury_impact : ℝ
  stat_ensemble_prob : ℝ
  context_impact : ℝ
  divergence : ℝ
  kalshi_confidence : String
  signal_strength : String
  recommendation : String
  wager_amount : ℤ
  wager_display : String

/-- Embedding of `EnhancedPredictionEngine.generate_prediction` (numeric and
decision core): assembles the returned result from the step functions
above. -/
def generate_prediction (cfg : EngineConfig) (inp : EngineInputs) : PredictionResult :=
  ⟨final_prob_of cfg inp,
   1 - final_prob_of cfg inp,
   stat_model_prob_of cfg inp,
   home_kalshi_prob_of inp.kalshi_markets,
   away_kalshi_prob_of inp.kalshi_markets,
   elo_prob_of inp,
   form_prob_of inp,
   record_prob_of inp,
   injury_prob_of inp,
   stat_ensemble_prob_of inp,
   context_prob_of inp,
   divergence_of cfg inp,
   kalshi_confidence_of inp.kalshi_markets,
   signal_strength_of cfg inp,
   recommendation_of cfg inp,
   wager_amount_of cfg inp,
   wager_display_of cfg inp⟩

end Engine

/- ------------------------------------------------------------------
Weight calibrator, from `model_calibration.ModelCalibration`.
------------------------------------------------------------------ -/

/-- The five blend weights of `stat_model_prob`, as stored in
`current_weights`. -/
structure CalWeights where
  elo : ℚ
  form : ℚ
  record : ℚ
  h2h : ℚ
  injury : ℚ
deriving DecidableEq

/-- The defaults of `ModelCalibration.default_weights`. -/
def default_weights : CalWeights := ⟨2/5, 1/5, 3/20, 1/10, 3/20⟩

/-- One record of the accuracy tracker's prediction history, with the fields
the calibrator reads.  `has_outcome` is the truthiness of `r.get('outcome')`. -/
structure PredRecord where
  verified : Bool
  has_outcome : Bool
  elo_prob : ℚ
  form_prob : ℚ
  stat_model_prob : ℚ
  home_won : Bool
deriving DecidableEq

/-- The calibrator's state: the in-memory `current_weights` plus the
persisted weights file (weights and length of the calibration history). -/
structure CalState where
  current_weights : CalWeights
  persisted_weights : Option CalWeights
  persisted_history : ℕ
deriving DecidableEq

/-- The calibration report `calibrate_weights` returns (the fields the
claims are about). -/
structure CalReport where
  success : Bool
  message : String
  weights_before : Option CalWeights
  weights_after : Option CalWeights
deriving DecidableEq

/-- The verified records the calibrator extracts from the history. -/
def verified_records (history : List PredRecord) : List PredRecord :=
  history.filter (fun r => r.verified && r.has_outcome)

/-- Post-processing of the optimizer's three weights: rescale them to sum to
0.85 and round to 3 decimals, keeping the H2H and injury weights at their
current values. -/
def scale_optimized (x : ℚ × ℚ × ℚ) (cw : CalWeights) : CalWeights :=
  let total := x.1 + x.2.1 + x.2.2
  let scale := (17 / 20) / total
  ⟨roundq3 (x.1 * scale), roundq3 (x.2.1 * scale), roundq3 (x.2.2 * scale),
    cw.h2h, cw.injury⟩

/-- Embedding of `optimize_ensemble_weights`.  The SLSQP run itself is an
external numeric routine; its converged solution (the three raw weights
`result.x`, inside the documented box bounds and sum constraints) is passed
in as the `opt_x` oracle, `none` modelling a failed optimization.  The
``not enough verified records'' early return is the source's own logic. -/
def optimize_ensemble_weights (history : List PredRecord)
    (opt_x : Option (ℚ × ℚ × ℚ)) (cw : CalWeights) (min_predictions : ℕ) :
    Option CalWeights :=
  if (verified_records history).length < min_predictions then none
  else opt_x.map (fun x => scale_optimized x cw)

/-- The conservative-adjustment loop of `calibrate_weights`: each weight's
change from its prior value is clipped to `±max_adjustment` and the result is
rounded to 3 decimals. -/
def apply_adjustments (cw ow : CalWeights) (max_adjustment : ℚ) : CalWeights :=
  ⟨roundq3 (cw.elo + clipq (ow.elo - cw.elo) (-max_adjustment) max_adjustment),
   roundq3 (cw.form + clipq (ow.form - cw.form) (-max_adjustment) max_adjustment),
   roundq3 (cw.record + clipq (ow.record - cw.record) (-max_adjustment) max_adjustment),
   roundq3 (cw.h2h + clipq (ow.h2h - cw.h2h) (-max_adjustment) max_adjustment),
   roundq3 (cw.injury + clipq (ow.injury - cw.injury) (-max_adjustment) max_adjustment)⟩

/-- Sum of the five weights. -/
def weights_total (w : CalWeights) : ℚ :=
  w.elo + w.form + w.record + w.h2h + w.injury

/-- The renormalization loop of `calibrate_weights`: divide every weight by
the current sum and round to 3 decimals. -/
def normalize_weights (w : CalWeights) : CalWeights :=
  let total := weights_total w
  ⟨roundq3 (w.elo / total), roundq3 (w.form / total), roundq3 (w.record / total),
    roundq3 (w.h2h / total), roundq3 (w.injury / total)⟩

/-- The human-readable failure reason of `calibrate_weights`. -/
def insufficient_message (min_predictions : ℕ) : String :=
  "Not enough data for calibration (need " ++ toString min_predictions ++
    " verified predictions)"

/-- Embedding of `ModelCalibration.calibrate_weights`.  On failure the state
is returned untouched; on success the adjusted weights are persisted (with a
new history entry), `current_weights` is reassigned, and the report is built
afterwards, reading `weights_before` from the already-reassigned
`current_weights` exactly as the source does. -/
def calibrate_weights (st : CalState) (history : List PredRecord)
    (opt_x : Option (ℚ × ℚ × ℚ)) (min_predictions : ℕ) (max_adjustment : ℚ) :
    CalReport × CalState :=
  match optimize_ensemble_weights history opt_x st.current_weights min_predictions with
  | none =>
    (⟨false, insufficient_message min_predictions, none, none⟩, st)
  | some ow =>
    let adjusted := normalize_weights (apply_adjustments st.current_weights ow max_adjustment)
    let st2 : CalState := ⟨adjusted, some adjusted, st.persisted_history + 1⟩
    (⟨true, "Calibration successful", some st2.current_weights, some adjusted⟩, st2)

/- ------------------------------------------------------------------
Concrete scenario data used by the counterexamples and witnesses.
------------------------------------------------------------------ -/

/-- A Celtics/Lakers matchup for the matcher scenarios. -/
def bostonGame : MatchGame :=
  ⟨"Boston Celtics", "Los Angeles Lakers", "BOS", "LAL"⟩

/-- A market whose subtitle names the home team only. -/
def marketM1 : RawMarket := ⟨"", "Boston Celtics", "M1", "", none, none, none, none⟩

/-- A second, later market whose subtitle also names the home team only. -/
def marketM2 : RawMarket := ⟨"", "Celtics", "M2", "", none, none, none, none⟩

/-- A market whose subtitle names the away team only. -/
def marketM3 : RawMarket := ⟨"", "Los Angeles Lakers", "M3", "", none, none, none, none⟩

/-- A single `"BOS vs LAL"` market with no distinguishing subtitle. -/
def marketVs : RawMarket := ⟨"BOS vs LAL", "", "KXVS", "", none, none, none, none⟩

/-- Neutral recent form: the source's default for a team without finished
games. -/
def neutralForm : FormStats := ⟨0.5, 0, 0, "NEUTRAL"⟩

/-- Empty season aggregate: the source's default for a team without finished
games. -/
def emptySeason : SeasonStats := ⟨0.5, 0⟩

/-- Engine inputs for a basketball game with home Elo 1735, away Elo 1400, no
market match, no form/H2H history, no injuries, both teams well rested. -/
def strongEdgeInputs : EngineInputs :=
  ⟨⟨"Boston Celtics", "Los Angeles Lakers", "nba", "0-0", "0-0"⟩,
   1735, 1400, neutralForm, neutralForm, emptySeason, emptySeason,
   0.5, 0, 0, 7, 7, 0, 0, none⟩

/-- A rating table holding a 2600-rated home team and a 1400-rated away
team in the nba league. -/
def lopsidedElo : EloState :=
  ⟨fun k => if k = "nba_H" then some 2600 else if k = "nba_A" then some 1400 else none⟩

/-- A verified prediction record with neutral component probabilities. -/
def neutralRecord : PredRecord := ⟨true, true, 1/2, 1/2, 1/2, true⟩

/-- A calibrator state holding the default weights. -/
def defaultCalState : CalState := ⟨default_weights, none, 0⟩

/-- Current weights skewed toward the Elo component (each weight a multiple
of 0.001, summing to 1). -/
def skewedWeights : CalWeights := ⟨7/10, 1/10, 1/20, 1/10, 1/20⟩

/-- A calibrator state whose current weights are skewed toward the Elo
component. -/
def skewedCalState : CalState := ⟨skewedWeights, none, 0⟩

/-- An optimizer solution inside all the SLSQP box bounds whose three raw
weights already sum to 0.85. -/
def rebalancingOpt : ℚ × ℚ × ℚ := (1/4, 7/20, 1/4)

/- ==================================================================
Theorems.
================================================================== -/

/-- Claim C9: for every raw market quote, the normalized market's subject
equals the subtitle when the subtitle is present (non-empty) and the title
otherwise, and its probability equals `last_price/100` when a (truthy)
last price is available, else `(yes_bid + yes_ask)/200` when bid and ask are
available (truthy after the 0 and 100 dict defaults), else `0.5`. -/
theorem C9_normalize_market_spec (m : RawMarket) :
    (normalize_market m).subject = (if m.subtitle ≠ "" then m.subtitle else m.title) ∧
    (normalize_market m).prob =
      (if m.last_price.getD 0 ≠ 0 then m.last_price.getD 0 / 100
       else if m.yes_bid.getD 0 ≠ 0 ∧ m.yes_ask.getD 100 ≠ 0 then
         (m.yes_bid.getD 0 + m.yes_ask.getD 100) / 200
       else 1 / 2) := by
  refine ⟨rfl, ?_⟩
  rcases hlp : m.last_price with _ | p
  · simp [normalize_market, truthy, hlp]
  · by_cases hp : p = 0 <;> simp [normalize_market, truthy, hlp, hp]

/-- How one scan step updates the home match slot: a home-only market
overwrites whatever was there. -/
theorem scan_step_home_match (hk ak : List String) (st : ScanState) (m : RawMarket) :
    (scan_step hk ak st m).home_match =
      if home_only hk ak m then some (normalize_market m) else st.home_match := by
  simp only [scan_step, home_only]
  split_ifs <;> simp_all

/-- How one scan step updates the away match slot. -/
theorem scan_step_away_match (hk ak : List String) (st : ScanState) (m : RawMarket) :
    (scan_step hk ak st m).away_match =
      if away_only hk ak m then some (normalize_market m) else st.away_match := by
  simp only [scan_step, away_only]
  split_ifs <;> simp_all

/-- Claim C3, amended: the scan binds `home_market_match` to the LAST market
in list order whose normalized subject substring-matches a home token and no
away token, and `away_market_match` to the last away-only matching market;
a later same-sided match replaces the earlier one. -/
theorem C3_amended (hk ak : List String) (markets : List RawMarket) :
    (scan_markets hk ak markets).home_match =
      ((markets.filter (home_only hk ak)).getLast?).map normalize_market ∧
    (scan_markets hk ak markets).away_match =
      ((markets.filter (away_only hk ak)).getLast?).map normalize_market := by
  induction markets using List.reverseRecOn with
  | nil => exact ⟨rfl, rfl⟩
  | append_singleton ms m ih =>
    have hfold : scan_markets hk ak (ms ++ [m]) =
        scan_step hk ak (scan_markets hk ak ms) m := by
      simp [scan_markets, List.foldl_append]
    constructor
    · rw [hfold, scan_step_home_match, List.filter_append]
      by_cases hm : home_only hk ak m
      · simp [hm]
      · simp [hm, ih.1]
    · rw [hfold, scan_step_away_match, List.filter_append]
      by_cases hm : away_only hk ak m
      · simp [hm]
      · simp [hm, ih.2]

/-- Claim C3, counterexample: with two home-only matching markets `M1` then
`M2` followed by the away-only `M3`, the matcher returns the dual pair whose
home market is `M2` — the LATER home-only match — even though `M1` was the
first home-only matching market in list order, contradicting the claimed
first-match semantics. -/
theorem C3_counterexample :
    match_game_to_markets bostonGame [marketM1, marketM2, marketM3] =
      some (.dual (normalize_market marketM2) (normalize_market marketM3)) ∧
    home_only (build_team_keys "Boston Celtics" "BOS")
      (build_team_keys "Los Angeles Lakers" "LAL") marketM1 = true ∧
    (normalize_market marketM2).market_id = "M2" ∧
    (normalize_market marketM1).market_id = "M1" ∧
    ("M2" : String) ≠ "M1" := by
  refine ⟨by decide!, by decide!, by decide!, by decide!, by decide!⟩

/-- Claim C7: when no distinct dual match exists and the best single-market
score reaches 1.5, the matcher inspects the best market's subject and
returns SingleHome on a home-only match, SingleAway on an away-only match,
and defaults to SingleHome when the subject matches both teams or neither. -/
theorem C7_single_market_resolution (g : MatchGame) (markets : List RawMarket)
    (m : NormMarket)
    (hne : markets ≠ [])
    (hdual : is_dual (scan_markets (build_team_keys g.home_team_name g.home_team_abbrev)
      (build_team_keys g.away_team_name g.away_team_abbrev) markets) = false)
    (hscore : (scan_markets (build_team_keys g.home_team_name g.home_team_abbrev)
      (build_team_keys g.away_team_name g.away_team_abbrev) markets).best_single_score ≥ 3 / 2)
    (hbest : (scan_markets (build_team_keys g.home_team_name g.home_team_abbrev)
      (build_team_keys g.away_team_name g.away_team_abbrev) markets).best_single_market = some m) :
    match_game_to_markets g markets =
      some
        (if any_key (build_team_keys g.home_team_name g.home_team_abbrev)
              (lower_string m.subject) &&
            !any_key (build_team_keys g.away_team_name g.away_team_abbrev)
              (lower_string m.subject) then
          .single_home m
         else if any_key (build_team_keys g.away_team_name g.away_team_abbrev)
              (lower_string m.subject) &&
            !any_key (build_team_keys g.home_team_name g.home_team_abbrev)
              (lower_string m.subject) then
          .single_away m
         else .single_home m) := by
  have hfb : single_fallback (build_team_keys g.home_team_name g.home_team_abbrev)
      (build_team_keys g.away_team_name g.away_team_abbrev)
      (scan_markets (build_team_keys g.home_team_name g.home_team_abbrev)
        (build_team_keys g.away_team_name g.away_team_abbrev) markets) =
      some
        (if any_key (build_team_keys g.home_team_name g.home_team_abbrev)
              (lower_string m.subject) &&
            !any_key (build_team_keys g.away_team_name g.away_team_abbrev)
              (lower_string m.subject) then
          MatchedResult.single_home m
         else if any_key (build_team_keys g.away_team_name g.away_team_abbrev)
              (lower_string m.subject) &&
            !any_key (build_team_keys g.home_team_name g.home_team_abbrev)
              (lower_string m.subject) then
          MatchedResult.single_away m
         else MatchedResult.single_home m) := by
    unfold single_fallback
    rw [hbest]
    simp only [if_pos hscore]
    split_ifs <;> rfl
  unfold match_game_to_markets
  rw [if_neg hne]
  rcases hh : (scan_markets (build_team_keys g.home_team_name g.home_team_abbrev)
      (build_team_keys g.away_team_name g.away_team_abbrev) markets).home_match with _ | h <;>
    rcases ha : (scan_markets (build_team_keys g.home_team_name g.home_team_abbrev)
      (build_team_keys g.away_team_name g.away_team_abbrev) markets).away_match with _ | a <;>
    simp only [hh, ha]
  · exact hfb
  · exact hfb
  · exact hfb
  · have heq : h.market_id = a.market_id := by
      rw [is_dual, hh, ha] at hdual
      simpa using hdual
    rw [heq, if_neg (by simp)]
    exact hfb

/-- Claim C7, witness: the spec's own scenario — a single `"BOS vs LAL"`
market with no distinguishing subtitle scores 2 ≥ 1.5, its subject matches
both teams, and the matcher resolves it to SingleHome. -/
theorem C7_witness :
    match_game_to_markets bostonGame [marketVs] =
      some (.single_home (normalize_market marketVs)) := by
  have h := C7_single_market_resolution bostonGame [marketVs] (normalize_market marketVs)
    (by decide) (by decide!) (by decide!) (by decide!)
  rw [h]
  decide!

/-- Powers of ten are positive. -/
theorem ten_rpow_pos (x : ℝ) : 0 < (10 : ℝ) ^ x :=
  Real.rpow_pos_of_pos (by norm_num) x

/-- Powers of ten are strictly monotone in the exponent. -/
theorem ten_rpow_lt_ten_rpow {x y : ℝ} (h : x < y) : (10 : ℝ) ^ x < (10 : ℝ) ^ y :=
  (Real.rpow_lt_rpow_left_iff (by norm_num : (1 : ℝ) < 10)).mpr h

/-- Rounding to the nearest integer is weakly monotone. -/
theorem round_le_of_le {α : Type*} [LinearOrderedField α] [FloorRing α] {x y : α}
    (h : x ≤ y) : round x ≤ round y := by
  rw [round_eq, round_eq]
  exact Int.floor_mono (by linarith)

/-- Rounding to one decimal is weakly monotone. -/
theorem round1_mono {x y : ℝ} (h : x ≤ y) : round1 x ≤ round1 y := by
  unfold round1
  have h2 : round (10 * x) ≤ round (10 * y) := round_le_of_le (by linarith)
  have h3 : ((round (10 * x) : ℤ) : ℝ) ≤ ((round (10 * y) : ℤ) : ℝ) := by exact_mod_cast h2
  linarith

/-- Rounding to one decimal fixes every multiple of one tenth. -/
theorem round1_grid (k : ℤ) : round1 ((k : ℝ) / 10) = (k : ℝ) / 10 := by
  unfold round1
  rw [show (10 : ℝ) * ((k : ℝ) / 10) = (k : ℝ) by ring, round_intCast]

/-- The expected score is strictly less than one. -/
theorem calculate_expected_score_lt_one (a b : ℝ) : calculate_expected_score a b < 1 := by
  unfold calculate_expected_score
  have hq := ten_rpow_pos ((b - a) / 400)
  rw [div_lt_one (by linarith)]
  linarith

/-- The expected score is positive. -/
theorem calculate_expected_score_pos (a b : ℝ) : 0 < calculate_expected_score a b := by
  unfold calculate_expected_score
  have hq := ten_rpow_pos ((b - a) / 400)
  positivity

/-- Claim C8, amended: when the home team wins, the home team's stored
rating does not decrease and the away team's stored rating does not increase
(the prior stored ratings sit on the one-decimal grid the store writes); the
UNROUNDED updated ratings move strictly — the expected score is always
strictly below 1 over the reals — but the stored ratings are rounded to one
decimal and may therefore remain unchanged. -/
theorem C8_amended (st : EloState) (home_id away_id league : String)
    (home_score away_score : ℤ)
    (hkey : league ++ "_" ++ home_id ≠ league ++ "_" ++ away_id)
    (hH : ∃ k : ℤ, get_rating st home_id league = (k : ℝ) / 10)
    (hA : ∃ k : ℤ, get_rating st away_id league = (k : ℝ) / 10) :
    get_rating st home_id league ≤
        get_rating (update_ratings st home_id away_id league true home_score away_score).1
          home_id league ∧
    get_rating (update_ratings st home_id away_id league true home_score away_score).1
        away_id league ≤ get_rating st away_id league ∧
    get_rating st home_id league <
        (update_ratings st home_id away_id league true home_score away_score).2.1 ∧
    (update_ratings st home_id away_id league true home_score away_score).2.2 <
        get_rating st away_id league := by
  obtain ⟨kh, hkh⟩ := hH
  obtain ⟨ka, hka⟩ := hA
  have hE1 : calculate_expected_score
      (get_rating st home_id league + home_advantage_elo league)
      (get_rating st away_id league) < 1 :=
    calculate_expected_score_lt_one _ _
  have hpd : (0 : ℝ) ≤ |(home_score : ℝ) - (away_score : ℝ)| := abs_nonneg _
  have hmov : (1 : ℝ) ≤ min (1 + |(home_score : ℝ) - (away_score : ℝ)| / 25) 2 :=
    le_min (by linarith) (by norm_num)
  have hdelta : 0 < 32 * min (1 + |(home_score : ℝ) - (away_score : ℝ)| / 25) 2 *
      (1 - calculate_expected_score
        (get_rating st home_id league + home_advantage_elo league)
        (get_rating st away_id league)) := by
    have h1 : (0 : ℝ) < 32 * min (1 + |(home_score : ℝ) - (away_score : ℝ)| / 25) 2 := by
      nlinarith
    nlinarith
  have h21 : (update_ratings st home_id away_id league true home_score away_score).2.1 =
      get_rating st home_id league +
        32 * min (1 + |(home_score : ℝ) - (away_score : ℝ)| / 25) 2 *
          (1 - calculate_expected_score
            (get_rating st home_id league + home_advantage_elo league)
            (get_rating st away_id league)) := rfl
  have h22 : (update_ratings st home_id away_id league true home_score away_score).2.2 =
      get_rating st away_id league +
        32 * min (1 + |(home_score : ℝ) - (away_score : ℝ)| / 25) 2 *
          ((1 - 1) - (1 - calculate_expected_score
            (get_rating st home_id league + home_advantage_elo league)
            (get_rating st away_id league))) := rfl
  have hsH : get_rating (update_ratings st home_id away_id league true home_score away_score).1
      home_id league =
      round1 ((update_ratings st home_id away_id league true home_score away_score).2.1) := by
    show (Option.getD (if (league ++ "_" ++ home_id) = (league ++ "_" ++ away_id) then _
      else if (league ++ "_" ++ home_id) = (league ++ "_" ++ home_id) then _ else _) _) = _
    rw [if_neg hkey, if_pos rfl]
    rfl
  have hsA : get_rating (update_ratings st home_id away_id league true home_score away_score).1
      away_id league =
      round1 ((update_ratings st home_id away_id league true home_score away_score).2.2) := by
    show (Option.getD (if (league ++ "_" ++ away_id) = (league ++ "_" ++ away_id) then _
      else _) _) = _
    rw [if_pos rfl]
    rfl
  refine ⟨?_, ?_, ?_, ?_⟩
  · rw [hsH]
    calc get_rating st home_id league
        = round1 (get_rating st home_id league) := by rw [hkh, round1_grid]
      _ ≤ round1 ((update_ratings st home_id away_id league true home_score away_score).2.1) := by
          apply round1_mono
          rw [h21]
          linarith
  · rw [hsA]
    calc round1 ((update_ratings st home_id away_id league true home_score away_score).2.2)
        ≤ round1 (get_rating st away_id league) := by
          apply round1_mono
          rw [h22]
          nlinarith
      _ = get_rating st away_id league := by rw [hka, round1_grid]
  · rw [h21]
    linarith
  · rw [h22]
    nlinarith

/-- Claim C8, counterexample: with stored ratings 2600 (home) versus 1400
(away) and a 100-99 home win, the home team's expected score is strictly
below 1, yet the home team's new STORED rating equals its old stored rating
— the update of about +0.02 disappears in the one-decimal rounding — so the
claimed strict increase fails although the expectation is not 1. -/
theorem C8_counterexample :
    get_rating lopsidedElo "H" "nba" = 2600 ∧
    get_rating (update_ratings lopsidedElo "H" "A" "nba" true 100 99).1 "H" "nba" =
      get_rating lopsidedElo "H" "nba" ∧
    calculate_expected_score
      (get_rating lopsidedElo "H" "nba" + home_advantage_elo "nba")
      (get_rating lopsidedElo "A" "nba") < 1 := by
  refine ⟨rfl, ?_, calculate_expected_score_lt_one _ _⟩
  have hsH : get_rating (update_ratings lopsidedElo "H" "A" "nba" true 100 99).1 "H" "nba" =
      round1 ((update_ratings lopsidedElo "H" "A" "nba" true 100 99).2.1) := rfl
  have h21 : (update_ratings lopsidedElo "H" "A" "nba" true 100 99).2.1 =
      get_rating lopsidedElo "H" "nba" +
        32 * min (1 + |((100 : ℤ) : ℝ) - ((99 : ℤ) : ℝ)| / 25) 2 *
          (1 - calculate_expected_score
            (get_rating lopsidedElo "H" "nba" + home_advantage_elo "nba")
            (get_rating lopsidedElo "A" "nba")) := rfl
  have h1 : get_rating lopsidedElo "H" "nba" = 2600 := rfl
  have h2 : get_rating lopsidedElo "A" "nba" = 1400 := rfl
  have hadv : home_advantage_elo "nba" = 65 := rfl
  have habs : |((100 : ℤ) : ℝ) - ((99 : ℤ) : ℝ)| = 1 := by
    push_cast
    norm_num
  have hmin : min (1 + (1 : ℝ) / 25) 2 = 26 / 25 := by
    rw [min_eq_left (by norm_num)]
    norm_num
  rw [hsH, h21, h1, h2, hadv, habs, hmin]
  have hEeq : calculate_expected_score ((2600 : ℝ) + 65) 1400 =
      1 / (1 + (10 : ℝ) ^ (((1400 : ℝ) - ((2600 : ℝ) + 65)) / 400)) := rfl
  have hq0 : 0 < (10 : ℝ) ^ (((1400 : ℝ) - ((2600 : ℝ) + 65)) / 400) := ten_rpow_pos _
  have hqlt : (10 : ℝ) ^ (((1400 : ℝ) - ((2600 : ℝ) + 65)) / 400) < (10 : ℝ) ^ (-3 : ℝ) :=
    ten_rpow_lt_ten_rpow (by norm_num)
  have h103 : (10 : ℝ) ^ (-3 : ℝ) = 1 / 1000 := by
    rw [show (-3 : ℝ) = ((-3 : ℤ) : ℝ) by norm_num, Real.rpow_intCast]
    norm_num
  set q := (10 : ℝ) ^ (((1400 : ℝ) - ((2600 : ℝ) + 65)) / 400) with hqdef
  have h1q : (0 : ℝ) < 1 + q := by linarith
  have hinv : 1 - q < 1 / (1 + q) := by
    rw [lt_div_iff₀ h1q]
    nlinarith [sq_nonneg q]
  have hEub : 1 - calculate_expected_score ((2600 : ℝ) + 65) 1400 < 1 / 1000 := by
    rw [hEeq]
    have : q < 1 / 1000 := by rw [← h103]; exact hqlt
    linarith
  have hElb : 0 < 1 - calculate_expected_score ((2600 : ℝ) + 65) 1400 := by
    have := calculate_expected_score_lt_one ((2600 : ℝ) + 65) 1400
    linarith
  set d := 1 - calculate_expected_score ((2600 : ℝ) + 65) 1400 with hddef
  unfold round1
  rw [round_eq]
  have hfl : ⌊(10 : ℝ) * (2600 + 32 * (26 / 25) * d) + 1 / 2⌋ = (26000 : ℤ) := by
    rw [Int.floor_eq_iff]
    constructor
    · push_cast
      nlinarith
    · push_cast
      nlinarith
  rw [hfl]
  norm_num

/-- Claim C8, witness: on an empty table (both teams at the 1500 default,
which sits on the one-decimal grid) a 100-90 home win moves the home stored
rating weakly up, the away stored rating weakly down, and the unrounded
ratings strictly. -/
theorem C8_witness :
    get_rating emptyElo "BOS" "nba" ≤
        get_rating (update_ratings emptyElo "BOS" "LAL" "nba" true 100 90).1 "BOS" "nba" ∧
    get_rating (update_ratings emptyElo "BOS" "LAL" "nba" true 100 90).1 "LAL" "nba" ≤
        get_rating emptyElo "LAL" "nba" ∧
    get_rating emptyElo "BOS" "nba" <
        (update_ratings emptyElo "BOS" "LAL" "nba" true 100 90).2.1 ∧
    (update_ratings emptyElo "BOS" "LAL" "nba" true 100 90).2.2 <
        get_rating emptyElo "LAL" "nba" :=
  C8_amended emptyElo "BOS" "LAL" "nba" 100 90 (by decide)
    ⟨15000, by norm_num [get_rating, emptyElo]⟩
    ⟨15000, by norm_num [get_rating, emptyElo]⟩

/-- The within-400-Elo-point power of ten appearing in the C1 scenario is
below 0.218 (raising both sides to the 80th power reduces this to integer
arithmetic). -/
theorem elo_q_upper : (10 : ℝ) ^ ((-265 : ℝ) / 400) < 0.218 := by
  have key : ((10 : ℝ) ^ ((-265 : ℝ) / 400)) ^ (80 : ℕ) = (10 : ℝ) ^ ((-53 : ℝ)) := by
    rw [← Real.rpow_natCast ((10 : ℝ) ^ ((-265 : ℝ) / 400)) 80,
      ← Real.rpow_mul (by norm_num : (0 : ℝ) ≤ 10)]
    norm_num
  have h53 : (10 : ℝ) ^ ((-53 : ℝ)) = ((10 : ℝ) ^ (53 : ℕ))⁻¹ := by
    rw [show ((-53 : ℝ)) = -((53 : ℕ) : ℝ) by norm_num,
      Real.rpow_neg (by norm_num), Real.rpow_natCast]
  apply lt_of_pow_lt_pow_left₀ 80 (by norm_num : (0 : ℝ) ≤ 0.218)
  rw [key, h53]
  norm_num

/-- The same power of ten is above 0.217. -/
theorem elo_q_lower : (0.217 : ℝ) < (10 : ℝ) ^ ((-265 : ℝ) / 400) := by
  have key : ((10 : ℝ) ^ ((-265 : ℝ) / 400)) ^ (80 : ℕ) = (10 : ℝ) ^ ((-53 : ℝ)) := by
    rw [← Real.rpow_natCast ((10 : ℝ) ^ ((-265 : ℝ) / 400)) 80,
      ← Real.rpow_mul (by norm_num : (0 : ℝ) ≤ 10)]
    norm_num
  have h53 : (10 : ℝ) ^ ((-53 : ℝ)) = ((10 : ℝ) ^ (53 : ℕ))⁻¹ := by
    rw [show ((-53 : ℝ)) = -((53 : ℕ) : ℝ) by norm_num,
      Real.rpow_neg (by norm_num), Real.rpow_natCast]
  apply lt_of_pow_lt_pow_left₀ 80 (Real.rpow_nonneg (by norm_num) _)
  rw [key, h53]
  norm_num

/-- The engine's Elo probability at home 1600, away 1400, basketball league,
written over the explicit power of ten. -/
theorem c1_elo_prob_form : calculate_elo_win_prob 1600 1400 "nba" =
    1 / (1 + (10 : ℝ) ^ ((-265 : ℝ) / 400)) := by
  unfold calculate_elo_win_prob
  norm_num

/-- Claim C1, counterexample: with home Elo 1600, away Elo 1400 and the
65-point basketball home bonus, `calculate_elo_win_prob` is more than 0.05
away from the claimed value 0.726 (it is in fact about 0.821: the spec's
arithmetic for its own formula is wrong). -/
theorem C1_counterexample : 0.05 < |calculate_elo_win_prob 1600 1400 "nba" - 0.726| := by
  have hub := elo_q_upper
  have h0 := ten_rpow_pos ((-265 : ℝ) / 400)
  have hgt : (0.776 : ℝ) < calculate_elo_win_prob 1600 1400 "nba" := by
    rw [c1_elo_prob_form]
    have h1 : (1 : ℝ) / (1 + 0.218) < 1 / (1 + (10 : ℝ) ^ ((-265 : ℝ) / 400)) :=
      one_div_lt_one_div_of_lt (by linarith) (by linarith)
    have h2 : (0.776 : ℝ) < 1 / (1 + 0.218) := by norm_num
    linarith
  rw [abs_of_pos (by linarith)]
  linarith

/-- Claim C1, amended: the Elo component probability in that scenario is
approximately 0.821 — within 0.001 of it — namely
`1/(1 + 10^((1400 − (1600+65))/400))`. -/
theorem C1_amended : |calculate_elo_win_prob 1600 1400 "nba" - 0.821| < 0.001 := by
  have hub := elo_q_upper
  have hlb := elo_q_lower
  have h0 := ten_rpow_pos ((-265 : ℝ) / 400)
  have hup : calculate_elo_win_prob 1600 1400 "nba" < 1 / (1 + 0.217) := by
    rw [c1_elo_prob_form]
    exact one_div_lt_one_div_of_lt (by norm_num) (by linarith)
  have hdn : (1 : ℝ) / (1 + 0.218) < calculate_elo_win_prob 1600 1400 "nba" := by
    rw [c1_elo_prob_form]
    exact one_div_lt_one_div_of_lt (by linarith) (by linarith)
  have e1 : (0.8210 : ℝ) < 1 / (1 + 0.218) := by norm_num
  have e2 : (1 : ℝ) / (1 + 0.217) < 0.8217 := by norm_num
  rw [abs_lt]
  constructor <;> linarith

/-- Lower clamp bound: `max a (min b x)` is at least `a`. -/
theorem clamp_lower_le (a b x : ℝ) : a ≤ max a (min b x) :=
  le_max_left a _

/-- Upper clamp bound: `max a (min b x)` is at most `b` once `a ≤ b`. -/
theorem clamp_le_upper {a b : ℝ} (h : a ≤ b) (x : ℝ) : max a (min b x) ≤ b :=
  max_le h (min_le_left _ _)

/-- The Elo win probability always lies strictly between 0 and 1. -/
theorem calculate_elo_win_prob_bounds (home_elo away_elo : ℝ) (league : String) :
    0 ≤ calculate_elo_win_prob home_elo away_elo league ∧
    calculate_elo_win_prob home_elo away_elo league ≤ 1 := by
  unfold calculate_elo_win_prob
  have hq := ten_rpow_pos ((away_elo - (home_elo +
    if league = "nba" then (65 : ℝ) else 55)) / 400)
  constructor
  · positivity
  · rw [div_le_one (by linarith)]
    linarith

/-- The rest adjustment is always within `[-0.04, 0.04]`. -/
theorem rest_impact_calc_bounds (league : String) (home_rest away_rest : ℤ) :
    -0.04 ≤ rest_impact_calc league home_rest away_rest ∧
    rest_impact_calc league home_rest away_rest ≤ 0.04 := by
  unfold rest_impact_calc
  split_ifs <;> norm_num

/-- The travel adjustment is always within `[-0.035, 0]`. -/
theorem travel_impact_calc_bounds (distance_km tz_diff : ℝ) :
    -0.035 ≤ travel_impact_calc distance_km tz_diff ∧
    travel_impact_calc distance_km tz_diff ≤ 0 := by
  unfold travel_impact_calc
  split_ifs <;> norm_num

/-- Claim C6: in every prediction the engine returns, each component
probability — Elo, form, record, injury, context, logistic ensemble — and
the final blended probability lies in `[0, 1]`, with the contractual
narrower ranges: form in `[0.12, 0.88]`, record in `[0.15, 0.85]`, injury in
`[0.20, 0.80]`, the statistical model probability in `[0.10, 0.90]`, and the
final home win probability in `[0.05, 0.95]`. -/
theorem C6_component_bounds (cfg : EngineConfig) (inp : EngineInputs) :
    (0 ≤ (generate_prediction cfg inp).elo_prob ∧
      (generate_prediction cfg inp).elo_prob ≤ 1) ∧
    (0.12 ≤ (generate_prediction cfg inp).form_prob ∧
      (generate_prediction cfg inp).form_prob ≤ 0.88) ∧
    (0.15 ≤ (generate_prediction cfg inp).record_prob ∧
      (generate_prediction cfg inp).record_prob ≤ 0.85) ∧
    (0.20 ≤ (generate_prediction cfg inp).injury_impact ∧
      (generate_prediction cfg inp).injury_impact ≤ 0.80) ∧
    (0 ≤ (generate_prediction cfg inp).context_impact ∧
      (generate_prediction cfg inp).context_impact ≤ 1) ∧
    (0.05 ≤ (generate_prediction cfg inp).stat_ensemble_prob ∧
      (generate_prediction cfg inp).stat_ensemble_prob ≤ 0.95) ∧
    (0.10 ≤ (generate_prediction cfg inp).stat_model_prob ∧
      (generate_prediction cfg inp).stat_model_prob ≤ 0.90) ∧
    (0.05 ≤ (generate_prediction cfg inp).home_win_prob ∧
      (generate_prediction cfg inp).home_win_prob ≤ 0.95) := by
  refine ⟨?_, ⟨?_, ?_⟩, ⟨?_, ?_⟩, ⟨?_, ?_⟩, ⟨?_, ?_⟩, ⟨?_, ?_⟩, ⟨?_, ?_⟩, ⟨?_, ?_⟩⟩
  · show 0 ≤ elo_prob_of inp ∧ elo_prob_of inp ≤ 1
    unfold elo_prob_of
    exact calculate_elo_win_prob_bounds _ _ _
  · show (0.12 : ℝ) ≤ form_prob_of inp
    simp only [form_prob_of]
    exact clamp_lower_le _ _ _
  · show form_prob_of inp ≤ 0.88
    simp only [form_prob_of]
    exact clamp_le_upper (by norm_num) _
  · show (0.15 : ℝ) ≤ record_prob_of inp
    simp only [record_prob_of]
    exact clamp_lower_le _ _ _
  · show record_prob_of inp ≤ 0.85
    simp only [record_prob_of]
    exact clamp_le_upper (by norm_num) _
  · show (0.20 : ℝ) ≤ injury_prob_of inp
    simp only [injury_prob_of]
    exact clamp_lower_le _ _ _
  · show injury_prob_of inp ≤ 0.80
    simp only [injury_prob_of]
    exact clamp_le_upper (by norm_num) _
  · show (0 : ℝ) ≤ context_prob_of inp
    simp only [context_prob_of]
    have h1 := rest_impact_calc_bounds inp.game.league inp.home_rest inp.away_rest
    have h2 := travel_impact_calc_bounds inp.travel_distance_km inp.travel_tz_diff
    linarith [h1.1, h2.2]
  · show context_prob_of inp ≤ 1
    simp only [context_prob_of]
    have h1 := rest_impact_calc_bounds inp.game.league inp.home_rest inp.away_rest
    have h2 := travel_impact_calc_bounds inp.travel_distance_km inp.travel_tz_diff
    linarith [h1.2, h2.1]
  · show (0.05 : ℝ) ≤ stat_ensemble_prob_of inp
    simp only [stat_ensemble_prob_of, predict_with_statistical]
    exact clamp_lower_le _ _ _
  · show stat_ensemble_prob_of inp ≤ 0.95
    simp only [stat_ensemble_prob_of, predict_with_statistical]
    exact clamp_le_upper (by norm_num) _
  · show (0.10 : ℝ) ≤ stat_model_prob_of cfg inp
    simp only [stat_model_prob_of]
    exact clamp_lower_le _ _ _
  · show stat_model_prob_of cfg inp ≤ 0.90
    simp only [stat_model_prob_of]
    exact clamp_le_upper (by norm_num) _
  · show (0.05 : ℝ) ≤ final_prob_of cfg inp
    simp only [final_prob_of]
    exact clamp_lower_le _ _ _
  · show final_prob_of cfg inp ≤ 0.95
    simp only [final_prob_of]
    exact clamp_le_upper (by norm_num) _

/-- The divergence field of the result is the step-9 divergence. -/
theorem result_divergence (cfg : EngineConfig) (inp : EngineInputs) :
    (generate_prediction cfg inp).divergence = divergence_of cfg inp := rfl

/-- The statistical model field of the result. -/
theorem result_stat_model (cfg : EngineConfig) (inp : EngineInputs) :
    (generate_prediction cfg inp).stat_model_prob = stat_model_prob_of cfg inp := rfl

/-- The market home probability field of the result. -/
theorem result_home_kalshi (cfg : EngineConfig) (inp : EngineInputs) :
    (generate_prediction cfg inp).home_kalshi_prob =
      home_kalshi_prob_of inp.kalshi_markets := rfl

/-- The signal strength field of the result. -/
theorem result_signal_strength (cfg : EngineConfig) (inp : EngineInputs) :
    (generate_prediction cfg inp).signal_strength = signal_strength_of cfg inp := rfl

/-- The recommendation field of the result. -/
theorem result_recommendation (cfg : EngineConfig) (inp : EngineInputs) :
    (generate_prediction cfg inp).recommendation = recommendation_of cfg inp := rfl

/-- The wager block's edge always equals the divergence. -/
theorem edge_of_eq_divergence (cfg : EngineConfig) (inp : EngineInputs) :
    edge_of cfg inp = divergence_of cfg inp := by
  unfold edge_of divergence_of
  rcases lt_or_le (home_kalshi_prob_of inp.kalshi_markets) (stat_model_prob_of cfg inp) with h | h
  · rw [if_pos h, abs_of_pos (by linarith)]
  · rw [if_neg (by linarith), abs_of_nonpos (by linarith), neg_sub]

/-- Claim C2, amended: divergence equals the absolute gap between
`stat_model_prob` and the market home probability, and the signal strength
follows the claimed thresholds (STRONG above 0.15, MODERATE above 0.08, WEAK
otherwise); the returned recommendation, however, is the wager-sizing
block's value, which unconditionally replaces the Follow/Fade/Lean/Neutral
strings: it is `"Bet team"` when divergence exceeds 0.15, `"Lean team"` when
divergence is in `(0.05, 0.15]`, and `"Stay Away"` when divergence is at
most 0.05, the team being the home team when the model is above the market
and the away team otherwise. -/
theorem C2_amended (cfg : EngineConfig) (inp : EngineInputs) :
    (generate_prediction cfg inp).divergence =
      |(generate_prediction cfg inp).stat_model_prob -
        (generate_prediction cfg inp).home_kalshi_prob| ∧
    (generate_prediction cfg inp).signal_strength =
      (if (generate_prediction cfg inp).divergence > 0.15 then "STRONG"
       else if (generate_prediction cfg inp).divergence > 0.08 then "MODERATE"
       else "WEAK") ∧
    (generate_prediction cfg inp).recommendation =
      (if (generate_prediction cfg inp).divergence > 0.05 then
        (if (generate_prediction cfg inp).divergence > 0.15 then "Bet " else "Lean ") ++
          (if (generate_prediction cfg inp).home_kalshi_prob <
              (generate_prediction cfg inp).stat_model_prob
           then inp.game.home_team_name else inp.game.away_team_name)
       else "Stay Away") := by
  refine ⟨rfl, rfl, ?_⟩
  simp only [result_recommendation, result_divergence, result_stat_model,
    result_home_kalshi]
  unfold recommendation_of target_team_of
  rw [edge_of_eq_divergence]
  unfold signal_strength_of
  rcases lt_or_le (0.05 : ℝ) (divergence_of cfg inp) with h05 | h05
  · simp only [if_pos h05]
    rcases lt_or_le (0.15 : ℝ) (divergence_of cfg inp) with h15 | h15
    · simp only [if_pos h15]
      simp
    · have hn15 : ¬ divergence_of cfg inp > 0.15 := not_lt.mpr h15
      simp only [if_neg hn15]
      rcases lt_or_le (0.08 : ℝ) (divergence_of cfg inp) with h08 | h08
      · simp only [if_pos h08]
        simp
      · have hn08 : ¬ divergence_of cfg inp > 0.08 := not_lt.mpr h08
        simp only [if_neg hn08]
        simp
  · have hn05 : ¬ divergence_of cfg inp > 0.05 := not_lt.mpr h05
    simp only [if_neg hn05]

/-- The Elo probability of the concrete strong-edge scenario: a 335-point
adjusted gap gives exactly `10/11`. -/
theorem strongEdge_elo : elo_prob_of strongEdgeInputs = 10 / 11 := by
  have h : elo_prob_of strongEdgeInputs =
      1 / (1 + (10 : ℝ) ^ (((1400 : ℝ) - ((1735 : ℝ) + 65)) / 400)) := rfl
  rw [h, show ((1400 : ℝ) - ((1735 : ℝ) + 65)) / 400 = -1 by norm_num,
    Real.rpow_neg_one]
  norm_num

/-- The form probability of the concrete strong-edge scenario. -/
theorem strongEdge_form : form_prob_of strongEdgeInputs = 0.55 := by
  simp only [form_prob_of, strongEdgeInputs, neutralForm]
  norm_num [min_def, max_def]

/-- The record probability of the concrete strong-edge scenario. -/
theorem strongEdge_record : record_prob_of strongEdgeInputs = 0.555 := by
  have hparse : parse_record "0-0" = (0, 0) := by decide
  simp only [record_prob_of, strongEdgeInputs, emptySeason, calculate_record_win_prob,
    hparse]
  norm_num [min_def, max_def]

/-- The statistical model probability of the concrete strong-edge
scenario. -/
theorem strongEdge_stat :
    stat_model_prob_of defaultConfig strongEdgeInputs = 30003 / 44000 := by
  simp only [stat_model_prob_of]
  rw [strongEdge_elo, strongEdge_form, strongEdge_record]
  simp only [h2h_adjustment_of, injury_prob_of, context_prob_of, rest_impact_calc,
    travel_impact_calc, strongEdgeInputs, defaultConfig]
  norm_num [min_def, max_def]

/-- The divergence of the concrete strong-edge scenario. -/
theorem strongEdge_divergence :
    divergence_of defaultConfig strongEdgeInputs = 8003 / 44000 := by
  have hk : home_kalshi_prob_of strongEdgeInputs.kalshi_markets = 0.5 := rfl
  simp only [divergence_of, strongEdge_stat, hk]
  rw [abs_of_pos (by norm_num)]
  norm_num

/-- Claim C2, counterexample: in a concrete market-less evaluation the
divergence exceeds 0.15 and the signal strength is STRONG, yet the returned
recommendation is `"Bet Boston Celtics"` — not `"Follow Market"` or
`"Fade Market"` as the claim states — because the wager-sizing block
overwrites the recommendation. -/
theorem C2_counterexample :
    (generate_prediction defaultConfig strongEdgeInputs).divergence > 0.15 ∧
    (generate_prediction defaultConfig strongEdgeInputs).signal_strength = "STRONG" ∧
    (generate_prediction defaultConfig strongEdgeInputs).recommendation =
      "Bet Boston Celtics" ∧
    ("Bet Boston Celtics" : String) ≠ "Follow Market" ∧
    ("Bet Boston Celtics" : String) ≠ "Fade Market" := by
  have hk : home_kalshi_prob_of strongEdgeInputs.kalshi_markets = 0.5 := rfl
  refine ⟨?_, ?_, ?_, by decide, by decide⟩
  · show divergence_of defaultConfig strongEdgeInputs > 0.15
    rw [strongEdge_divergence]
    norm_num
  · show signal_strength_of defaultConfig strongEdgeInputs = "STRONG"
    unfold signal_strength_of
    rw [strongEdge_divergence]
    norm_num
  · show recommendation_of defaultConfig strongEdgeInputs = "Bet Boston Celtics"
    unfold recommendation_of
    rw [edge_of_eq_divergence, strongEdge_divergence]
    rw [if_pos (by norm_num)]
    have hsig : signal_strength_of defaultConfig strongEdgeInputs = "STRONG" := by
      unfold signal_strength_of
      rw [strongEdge_divergence]
      norm_num
    rw [hsig, if_pos rfl]
    unfold target_team_of
    rw [strongEdge_stat, hk, if_pos (by norm_num)]
    rfl

/-- One clipped-and-rounded weight adjustment moves the weight by at most
`max_adjustment`, provided the prior weight and the bound sit on the
three-decimal grid the store writes. -/
theorem adjustment_bound (old x m : ℚ) (hm : 0 ≤ m)
    (hold : ∃ k : ℤ, old = (k : ℚ) / 1000) (hmg : ∃ j : ℤ, m = (j : ℚ) / 1000) :
    |roundq3 (old + clipq (x - old) (-m) m) - old| ≤ m := by
  obtain ⟨k, rfl⟩ := hold
  obtain ⟨j, rfl⟩ := hmg
  set c := clipq (x - (k : ℚ) / 1000) (-((j : ℚ) / 1000)) ((j : ℚ) / 1000) with hc
  have hcub : c ≤ (j : ℚ) / 1000 := min_le_left _ _
  have hclb : -((j : ℚ) / 1000) ≤ c := le_min (by linarith) (le_max_left _ _)
  have hr : roundq3 ((k : ℚ) / 1000 + c) = ((k + round (1000 * c) : ℤ) : ℚ) / 1000 := by
    unfold roundq3
    rw [show (1000 : ℚ) * ((k : ℚ) / 1000 + c) = 1000 * c + (k : ℚ) by ring,
      round_add_int]
    push_cast
    ring
  have hrle : round ((1000 : ℚ) * c) ≤ j := by
    have h1 : (1000 : ℚ) * c ≤ ((j : ℤ) : ℚ) := by linarith
    calc round ((1000 : ℚ) * c) ≤ round (((j : ℤ) : ℚ)) := round_le_of_le h1
      _ = j := round_intCast j
  have hrge : -j ≤ round ((1000 : ℚ) * c) := by
    have h1 : (((-j : ℤ) : ℚ)) ≤ 1000 * c := by
      push_cast
      linarith
    calc (-j : ℤ) = round (((-j : ℤ) : ℚ)) := (round_intCast _).symm
      _ ≤ round ((1000 : ℚ) * c) := round_le_of_le h1
  rw [hr]
  have hq1 : ((round ((1000 : ℚ) * c) : ℤ) : ℚ) ≤ (j : ℚ) := by exact_mod_cast hrle
  have hq2 : ((-j : ℤ) : ℚ) ≤ ((round ((1000 : ℚ) * c) : ℤ) : ℚ) := by exact_mod_cast hrge
  rw [abs_le]
  constructor
  · push_cast at hq2 ⊢
    linarith
  · push_cast at hq1 ⊢
    linarith

/-- Claim C4, amended: each of the five weights produced by the
conservative-adjustment loop — BEFORE the final renormalization — differs
from its prior value by at most `max_adjustment`, whenever the prior weights
and the bound are multiples of 0.001; after the final division by the weight
sum a weight can drift further than `max_adjustment` from its prior value
(see the counterexample). -/
theorem C4_amended (cw ow : CalWeights) (m : ℚ) (hm : 0 ≤ m)
    (hmg : ∃ j : ℤ, m = (j : ℚ) / 1000)
    (h1 : ∃ k : ℤ, cw.elo = (k : ℚ) / 1000)
    (h2 : ∃ k : ℤ, cw.form = (k : ℚ) / 1000)
    (h3 : ∃ k : ℤ, cw.record = (k : ℚ) / 1000)
    (h4 : ∃ k : ℤ, cw.h2h = (k : ℚ) / 1000)
    (h5 : ∃ k : ℤ, cw.injury = (k : ℚ) / 1000) :
    |(apply_adjustments cw ow m).elo - cw.elo| ≤ m ∧
    |(apply_adjustments cw ow m).form - cw.form| ≤ m ∧
    |(apply_adjustments cw ow m).record - cw.record| ≤ m ∧
    |(apply_adjustments cw ow m).h2h - cw.h2h| ≤ m ∧
    |(apply_adjustments cw ow m).injury - cw.injury| ≤ m :=
  ⟨adjustment_bound cw.elo ow.elo m hm h1 hmg,
   adjustment_bound cw.form ow.form m hm h2 hmg,
   adjustment_bound cw.record ow.record m hm h3 hmg,
   adjustment_bound cw.h2h ow.h2h m hm h4 hmg,
   adjustment_bound cw.injury ow.injury m hm h5 hmg⟩

/-- Claim C4, amended, witness: the adjustment loop applied to the skewed
weights with the rebalancing optimizer output and the default 0.05 bound
keeps every pre-normalization change within 0.05. -/
theorem C4_amended_witness :
    |(apply_adjustments skewedWeights ⟨1/4, 7/20, 1/4, 1/10, 1/20⟩ (1/20)).elo -
      skewedWeights.elo| ≤ 1/20 ∧
    |(apply_adjustments skewedWeights ⟨1/4, 7/20, 1/4, 1/10, 1/20⟩ (1/20)).form -
      skewedWeights.form| ≤ 1/20 ∧
    |(apply_adjustments skewedWeights ⟨1/4, 7/20, 1/4, 1/10, 1/20⟩ (1/20)).record -
      skewedWeights.record| ≤ 1/20 ∧
    |(apply_adjustments skewedWeights ⟨1/4, 7/20, 1/4, 1/10, 1/20⟩ (1/20)).h2h -
      skewedWeights.h2h| ≤ 1/20 ∧
    |(apply_adjustments skewedWeights ⟨1/4, 7/20, 1/4, 1/10, 1/20⟩ (1/20)).injury -
      skewedWeights.injury| ≤ 1/20 :=
  C4_amended skewedWeights ⟨1/4, 7/20, 1/4, 1/10, 1/20⟩ (1/20) (by norm_num)
    ⟨50, by norm_num⟩
    ⟨700, by norm_num [skewedWeights]⟩
    ⟨100, by norm_num [skewedWeights]⟩
    ⟨50, by norm_num [skewedWeights]⟩
    ⟨100, by norm_num [skewedWeights]⟩
    ⟨50, by norm_num [skewedWeights]⟩

/-- Claim C4, counterexample: a successful calibration — 50 verified
records, a converged optimizer solution inside all the SLSQP box bounds and
sum constraints — whose resulting Elo weight lands at 0.619, a move of 0.081
from the prior 0.700: the final renormalization takes the weight further
from its prior value than `max_adjustment = 0.05` allows. -/
theorem C4_counterexample :
    (calibrate_weights skewedCalState (List.replicate 50 neutralRecord)
      (some rebalancingOpt) 50 (1/20)).1.success = true ∧
    (calibrate_weights skewedCalState (List.replicate 50 neutralRecord)
      (some rebalancingOpt) 50 (1/20)).2.current_weights.elo = 619/1000 ∧
    skewedCalState.current_weights.elo = 7/10 ∧
    ¬ (|(calibrate_weights skewedCalState (List.replicate 50 neutralRecord)
        (some rebalancingOpt) 50 (1/20)).2.current_weights.elo -
          skewedCalState.current_weights.elo| ≤ 1/20) ∧
    (1/10 ≤ rebalancingOpt.1 ∧ rebalancingOpt.1 ≤ 7/10) ∧
    (1/20 ≤ rebalancingOpt.2.1 ∧ rebalancingOpt.2.1 ≤ 1/2) ∧
    (1/20 ≤ rebalancingOpt.2.2 ∧ rebalancingOpt.2.2 ≤ 2/5) ∧
    (1/2 ≤ rebalancingOpt.1 + rebalancingOpt.2.1 + rebalancingOpt.2.2 ∧
      rebalancingOpt.1 + rebalancingOpt.2.1 + rebalancingOpt.2.2 ≤ 1) := by
  decide!

/-- The calibrator's failure message is never empty. -/
theorem insufficient_message_ne_empty (n : ℕ) : insufficient_message n ≠ "" := by
  unfold insufficient_message
  intro h
  have hlen := congrArg String.length h
  rw [String.length_append, String.length_append] at hlen
  have h1 : ("Not enough data for calibration (need " : String).length = 38 := by decide
  have h2 : (" verified predictions)" : String).length = 22 := by decide
  have h3 : ("" : String).length = 0 := by decide
  omega

/-- Claim C5: with fewer verified records than `min_predictions`,
`calibrate_weights` returns a failure report (success false) carrying a
non-empty human-readable reason, and neither the in-memory current weights
nor the persisted weights change — the state is returned untouched. -/
theorem C5_insufficient_data (st : CalState) (history : List PredRecord)
    (opt_x : Option (ℚ × ℚ × ℚ)) (min_predictions : ℕ) (max_adjustment : ℚ)
    (h : (verified_records history).length < min_predictions) :
    (calibrate_weights st history opt_x min_predictions max_adjustment).1.success = false ∧
    (calibrate_weights st history opt_x min_predictions max_adjustment).1.message ≠ "" ∧
    (calibrate_weights st history opt_x min_predictions max_adjustment).2 = st := by
  unfold calibrate_weights optimize_ensemble_weights
  rw [if_pos h]
  exact ⟨rfl, insufficient_message_ne_empty min_predictions, rfl⟩

/-- Claim C5, witness: with exactly 49 verified records and the default
threshold of 50, calibration fails and the state is unchanged. -/
theorem C5_witness :
    (verified_records (List.replicate 49 neutralRecord)).length = 49 ∧
    (calibrate_weights defaultCalState (List.replicate 49 neutralRecord)
      (some (2/5, 1/5, 3/20)) 50 (1/20)).1.success = false ∧
    (calibrate_weights defaultCalState (List.replicate 49 neutralRecord)
      (some (2/5, 1/5, 3/20)) 50 (1/20)).1.message ≠ "" ∧
    (calibrate_weights defaultCalState (List.replicate 49 neutralRecord)
      (some (2/5, 1/5, 3/20)) 50 (1/20)).2 = defaultCalState := by
  have h : (verified_records (List.replicate 49 neutralRecord)).length < 50 := by decide
  have hmain := C5_insufficient_data defaultCalState (List.replicate 49 neutralRecord)
    (some (2/5, 1/5, 3/20)) 50 (1/20) h
  exact ⟨by decide, hmain.1, hmain.2.1, hmain.2.2⟩

/-- Claim C10: whenever `calibrate_weights` reports success, the report's
`weights_before` equals its `weights_after`: `current_weights` is reassigned
to the adjusted weights before the report is built, so the report reads the
post-calibration weights into both fields and the true pre-calibration
weights never appear in it. -/
theorem C10_report_aliasing (st : CalState) (history : List PredRecord)
    (opt_x : Option (ℚ × ℚ × ℚ)) (min_predictions : ℕ) (max_adjustment : ℚ)
    (_hsuccess : (calibrate_weights st history opt_x min_predictions max_adjustment).1.success
      = true) :
    (calibrate_weights st history opt_x min_predictions max_adjustment).1.weights_before =
      (calibrate_weights st history opt_x min_predictions max_adjustment).1.weights_after := by
  unfold calibrate_weights
  rcases optimize_ensemble_weights history opt_x st.current_weights min_predictions
    with _ | ow
  · rfl
  · rfl

/-- Claim C10, witness: a concrete successful calibration from the default
weights whose report carries identical before and after weights. -/
theorem C10_witness :
    (calibrate_weights defaultCalState (List.replicate 50 neutralRecord)
      (some (2/5, 1/5, 3/20)) 50 (1/20)).1.success = true ∧
    (calibrate_weights defaultCalState (List.replicate 50 neutralRecord)
      (some (2/5, 1/5, 3/20)) 50 (1/20)).1.weights_before =
      (calibrate_weights defaultCalState (List.replicate 50 neutralRecord)
        (some (2/5, 1/5, 3/20)) 50 (1/20)).1.weights_after := by
  have hs : (calibrate_weights defaultCalState (List.replicate 50 neutralRecord)
      (some (2/5, 1/5, 3/20)) 50 (1/20)).1.success = true := by decide!
  exact ⟨hs, C10_report_aliasing defaultCalState (List.replicate 50 neutralRecord)
    (some (2/5, 1/5, 3/20)) 50 (1/20) hs⟩

end KalshiPredictor
